import Mathlib

/-!
Shallow embedding of the `mail_graph_api` Odoo module (Microsoft Graph API
mail transport) and verification of its design-spec claims.

Embedded source files:
* `models/mail_server.py`  — OAuth token lifecycle (`_get_oauth_token`,
  `_refresh_oauth_token`, `refresh_token_if_needed`) and `send_email`.
* `models/mail_mail.py`    — the send dispatcher (`send`, `_send`,
  `mark_outgoing`), including recipient parsing and attachment handling.
* `controllers/main.py`    — the OAuth authorization callback.

Modelling conventions:
* Timestamps are integer seconds (`Time := Int`); `datetime.now()` becomes an
  explicit `now` parameter; `timedelta(minutes=5)` is `300`.
* Odoo `Char` fields are `String`, with `""` playing the role of a falsy
  (`False`/`None`) value; `Datetime` fields are `Option Time`.
* JSON dictionaries returned by the identity provider are `TokenResponse`
  records whose optional keys are `Option` fields, so that the source's
  distinction between `d.get(k)` (truthiness) and `k in d` (presence) is
  representable.
* Network I/O is an oracle: each run receives the responses the endpoints
  would produce, and returns the list of requests it issued (`Event`s),
  so the theorems can speak about which network calls happen.
* Attachment blobs are abstracted by their byte length (`datas : Option Nat`,
  `none` for an unset blob on which `base64.b64encode` raises); the length of
  the base64 encoding of `n` bytes is `b64Len n = 4 * ceil(n / 3)`.
-/

namespace MailGraphApi

/-- Timestamps in seconds (an abstraction of Python `datetime`). -/
abbrev Time := Int

/-- The persisted `ir.mail_server` record fields touched by the module
(`models/mail_server.py`, lines 18-67). -/
structure MailServerState where
  use_graph_api : Bool
  ms_client_id : String
  ms_client_secret : String
  ms_tenant_id : String
  ms_sender_email : String
  ms_access_token : String
  ms_refresh_token : String
  ms_token_expiry : Option Time
  fallback_to_smtp : Bool
  deriving Repr, DecidableEq

/-- A parsed JSON response of the identity provider's token endpoint.
`none` in an optional field means the key is absent from the JSON object. -/
structure TokenResponse where
  status : Nat
  text : String
  access_token : Option String
  refresh_token : Option String
  expires_in : Option Int
  deriving Repr, DecidableEq

/-- Payload entry for one attachment in the Graph `sendMail` JSON body
(`models/mail_mail.py`, lines 194-199).  `rawLen` abstracts the blob that
`contentBytes` is the base64 encoding of. -/
structure AttachmentData where
  name : String
  contentType : String
  rawLen : Nat
  deriving Repr, DecidableEq

/-- The Graph `sendMail` JSON body (`models/mail_mail.py` lines 152-172 and
`models/mail_server.py` lines 400-416), with recipient entries abstracted to
their address strings and the nested `emailAddress` objects flattened.
An empty `ccRecipients`/`attachments` list stands for the key being absent. -/
structure GraphPayload where
  subject : String
  contentType : String
  content : String
  toRecipients : List String
  ccRecipients : List String
  fromAddress : String
  attachments : List AttachmentData
  saveToSentItems : String
  deriving Repr, DecidableEq

/-- A network request issued by the module.  `timeoutSec` is the `timeout=`
argument passed to `requests.post`/`requests.get`; `smtpSend` records a
delegation of a list of mail ids to the standard SMTP path (`super()._send`). -/
inductive Event where
  | tokenRequest (grantType : String) (timeoutSec : Nat)
  | graphSend (mailId : Option Nat) (url : String) (bearer : String)
      (payload : GraphPayload) (timeoutSec : Nat)
  | profileRequest (bearer : String) (timeoutSec : Nat)
  | smtpSend (mailIds : List Nat)
  deriving Repr, DecidableEq

/-- Whether an event is a Graph `sendMail` network call. -/
def Event.isGraphSend : Event → Bool
  | Event.graphSend _ _ _ _ _ => true
  | _ => false

/-- Whether an event is a network call at all (everything except the
delegation to the SMTP collaborator). -/
def Event.isNetworkCall : Event → Bool
  | Event.smtpSend _ => false
  | _ => true

/-- The `timeout=` argument of a network event (0 for `smtpSend`, which is
not a network call of this module). -/
def Event.timeoutSecOf : Event → Nat
  | Event.tokenRequest _ t => t
  | Event.graphSend _ _ _ _ t => t
  | Event.profileRequest _ t => t
  | Event.smtpSend _ => 0

/-- Errors raised by the token refresher as `UserError` exceptions
(`models/mail_server.py`, lines 164 and 218). -/
inductive RefreshError where
  | configIncomplete
  | authFailed (status : Nat) (text : String)
  deriving Repr, DecidableEq

/-- The `UserError` message text carried by a refresh failure. -/
def refreshErrorMessage : RefreshError → String
  | RefreshError.configIncomplete =>
      "Microsoft Graph API credentials are incomplete. Please check Client ID, Client Secret, and Tenant ID."
  | RefreshError.authFailed _ t =>
      "Failed to authenticate with Microsoft Graph API: " ++ t

/-- Shallow embedding of `IrMailServer._refresh_oauth_token`
(`models/mail_server.py`, lines 158-218).  Given the response the token
endpoint would return, produces either the updated server record together
with `token_data.get('access_token')`, or the raised `UserError`; the second
component lists the network requests issued. -/
def refreshOauthToken (now : Time) (s : MailServerState) (resp : TokenResponse) :
    Except RefreshError (MailServerState × Option String) × List Event :=
  if s.ms_client_id = "" ∨ s.ms_client_secret = "" ∨ s.ms_tenant_id = "" then
    (Except.error RefreshError.configIncomplete, [])
  else
    let grant := if s.ms_refresh_token ≠ "" then "refresh_token" else "client_credentials"
    let req := Event.tokenRequest grant 10
    if resp.status ≠ 200 then
      (Except.error (RefreshError.authFailed resp.status resp.text), [req])
    else
      let s2 : MailServerState :=
        { s with
          ms_access_token := resp.access_token.getD ""
          ms_token_expiry := some (now + resp.expires_in.getD 3600)
          ms_refresh_token :=
            if resp.refresh_token.getD "" ≠ "" then resp.refresh_token.getD ""
            else s.ms_refresh_token }
      (Except.ok (s2, resp.access_token), [req])

/-- The cached-token validity test of `IrMailServer._get_oauth_token`
(`models/mail_server.py`, lines 148-152): a non-falsy access token whose
recorded expiry lies more than 5 minutes in the future. -/
def tokenCachedValid (now : Time) (s : MailServerState) : Bool :=
  s.ms_access_token ≠ "" &&
    match s.ms_token_expiry with
    | some expiry => decide (expiry > now + 300)
    | none => false

/-- Shallow embedding of `IrMailServer._get_oauth_token`
(`models/mail_server.py`, lines 141-156) — the spec's `ensure_valid_token`. -/
def getOauthToken (now : Time) (s : MailServerState) (resp : TokenResponse) :
    Except RefreshError (MailServerState × Option String) × List Event :=
  if tokenCachedValid now s then
    (Except.ok (s, some s.ms_access_token), [])
  else
    refreshOauthToken now s resp

/-- Shallow embedding of `IrMailServer.refresh_token_if_needed`
(`models/mail_server.py`, lines 496-562).  `r1` is the response to the
refresh-token-grant request it issues itself; `r2` is the response to the
request `_refresh_oauth_token` would issue if the code falls back to it.
The boolean result mirrors the Python return value's truthiness. -/
def refreshTokenIfNeeded (now : Time) (s : MailServerState) (r1 r2 : TokenResponse) :
    Except RefreshError (MailServerState × Bool) × List Event :=
  if ¬ s.use_graph_api then
    (Except.ok (s, false), [])
  else
    let expiryThreshold := now + 300
    let staleToken :=
      match s.ms_token_expiry with
      | none => true
      | some expiry => decide (expiry ≤ expiryThreshold)
    if staleToken then
      if s.ms_refresh_token ≠ "" then
        let req := Event.tokenRequest "refresh_token" 10
        if r1.status ≠ 200 then
          match refreshOauthToken now s r2 with
          | (Except.ok (s2, tok), tr) =>
              (Except.ok (s2, decide (tok.getD "" ≠ "")), req :: tr)
          | (Except.error e, tr) => (Except.error e, req :: tr)
        else if r1.access_token.isNone then
          match refreshOauthToken now s r2 with
          | (Except.ok (s2, tok), tr) =>
              (Except.ok (s2, decide (tok.getD "" ≠ "")), req :: tr)
          | (Except.error e, tr) => (Except.error e, req :: tr)
        else
          let expires_in := r1.expires_in.getD 3600
          let s2 : MailServerState :=
            { s with
              ms_access_token := r1.access_token.getD ""
              ms_token_expiry := some (now + expires_in)
              ms_refresh_token :=
                if r1.refresh_token.isSome then r1.refresh_token.getD ""
                else s.ms_refresh_token }
          (Except.ok (s2, true), [req])
      else
        match refreshOauthToken now s r2 with
        | (Except.ok (s2, tok), tr) =>
            (Except.ok (s2, decide (tok.getD "" ≠ "")), tr)
        | (Except.error e, tr) => (Except.error e, tr)
    else
      (Except.ok (s, true), [])

/-- The `state` selection field of `mail.mail` records. -/
inductive MailState where
  | outgoing
  | sent
  | received
  | exception
  | cancel
  deriving Repr, DecidableEq

/-- A `res.partner` record as read by the dispatcher (`partner.email`,
with `""` for an unset address). -/
structure ResPartner where
  email : String
  deriving Repr, DecidableEq

/-- An `ir.attachment` record as read by the dispatcher: `datas` is
abstracted by the byte length of the blob, `none` when the blob is unset
(in which case `base64.b64encode(attachment.datas)` raises). -/
structure Attachment where
  name : String
  mimetype : String
  datas : Option Nat
  deriving Repr, DecidableEq

/-- The `mail.mail` record fields read and written by the module
(`models/mail_mail.py`). -/
structure MailMessage where
  id : Nat
  state : MailState
  failure_reason : String
  email_from : String
  email_to : String
  email_cc : String
  recipient_ids : List ResPartner
  subject : String
  body : String
  body_html : String
  attachment_ids : List Attachment
  mail_server_id : Option Nat
  graph_api_attempted : Bool
  deriving Repr, DecidableEq

/-- Structural split of a character list on a separator (same semantics
as Python `str.split(sep)` for a one-character separator). -/
def splitOnCharAux (sep : Char) : List Char → List Char → List (List Char)
  | [], acc => [acc.reverse]
  | c :: rest, acc =>
      if c = sep then acc.reverse :: splitOnCharAux sep rest []
      else splitOnCharAux sep rest (c :: acc)

/-- Python `s.split(sep)` for a one-character separator. -/
def splitOnChar (sep : Char) (s : String) : List String :=
  (splitOnCharAux sep s.toList []).map List.asString

/-- Python `s.strip()`: drop leading and trailing whitespace. -/
def pyStrip (s : String) : String :=
  ((s.toList.dropWhile Char.isWhitespace).reverse.dropWhile
      Char.isWhitespace).reverse.asString

/-- Python's `s.split('<')[1].split('>')[0]` applied when `'<' in s`
(`models/mail_mail.py`, lines 107-108, 134-135, 148-149): strips a
display-name part, keeping the address between the angle brackets. -/
def stripDisplayName (s : String) : String :=
  match splitOnChar '<' s with
  | _ :: t :: _ => (splitOnChar '>' t).headD t
  | _ => s

/-- The recipient-string parsing loop of `models/mail_mail.py`
(lines 129-136 for To, 143-150 for Cc): split on commas, strip whitespace,
drop empty entries, strip display names. -/
def parseAddressList (raw : String) : List String :=
  (splitOnChar ',' raw).foldl
    (fun acc e =>
      let e := pyStrip e
      if e = "" then acc else acc ++ [stripDisplayName e])
    []

/-- Python `a or b` for strings (`b` when `a` is falsy). -/
def orString (a b : String) : String := if a = "" then b else a

/-- Length of the base64 encoding of `n` bytes. -/
def b64Len (n : Nat) : Nat := 4 * ((n + 2) / 3)

/-- The 35 MB cumulative attachment ceiling of `models/mail_mail.py`,
line 175. -/
def maxAttachmentSize : Nat := 35 * 1024 * 1024

/-- The attachment-processing loop of `models/mail_mail.py`, lines 185-208,
as a recursion over the remaining attachments with the accumulated payload
entries, skip list and running `total_size`.  An attachment is skipped by
name when it would push `total_size` past the ceiling, and skipped with a
`" (error)"` suffix when encoding its blob raises. -/
def buildAttachmentsAux :
    List Attachment → List AttachmentData → List String → Nat →
      List AttachmentData × List String × Nat
  | [], outAtts, skipped, total => (outAtts, skipped, total)
  | a :: rest, outAtts, skipped, total =>
      let attachmentSize := a.datas.getD 0
      if total + attachmentSize > maxAttachmentSize then
        buildAttachmentsAux rest outAtts (skipped ++ [a.name]) total
      else
        match a.datas with
        | none =>
            buildAttachmentsAux rest outAtts (skipped ++ [a.name ++ " (error)"]) total
        | some n =>
            buildAttachmentsAux rest
              (outAtts ++ [⟨a.name, orString a.mimetype "application/octet-stream", n⟩])
              skipped (total + n)

/-- Attachment processing for one mail (`models/mail_mail.py`, lines
174-215): returns the payload attachment list, the skipped-name list and
the final `total_size`. -/
def buildAttachments (atts : List Attachment) :
    List AttachmentData × List String × Nat :=
  buildAttachmentsAux atts [] [] 0

/-- Sum of the raw (pre-encoding) blob lengths of a payload attachment
list — the quantity the source's `total_size` counter budgets. -/
def sumRaw (l : List AttachmentData) : Nat := (l.map (fun d => d.rawLen)).sum

/-- Sum of the base64-encoded `contentBytes` lengths of a payload
attachment list. -/
def sumEncoded (l : List AttachmentData) : Nat :=
  (l.map (fun d => b64Len d.rawLen)).sum

/-- Outcome of one `requests.post` to the Graph `sendMail` endpoint:
a delivered HTTP response, a `requests.exceptions.Timeout`, or another
`RequestException`. -/
inductive SendOutcome where
  | http (status : Nat) (text : String)
  | timedOut
  | requestError (text : String)
  deriving Repr, DecidableEq

/-- The network responses available to the processing of one mail: the
response to the refresh-grant token request (`tokenResp1`), the response to
the fallback `_refresh_oauth_token` request (`tokenResp2`), and the outcome
of the `sendMail` post. -/
structure MailOracle where
  tokenResp1 : TokenResponse
  tokenResp2 : TokenResponse
  sendResp : SendOutcome
  deriving Repr, DecidableEq

/-- The host environment the dispatcher reads: the `ir.mail_server` records
(in the `order='sequence'` search order) and `self.env.company.email`. -/
structure MailEnv where
  servers : List (Nat × MailServerState)
  company_email : String
  deriving Repr, DecidableEq

/-- Fields of an `ir.mail_server` record browsed by an id that matches no
row: every field reads falsy. -/
def defaultMailServer : MailServerState :=
  { use_graph_api := false, ms_client_id := "", ms_client_secret := ""
    ms_tenant_id := "", ms_sender_email := "", ms_access_token := ""
    ms_refresh_token := "", ms_token_expiry := none, fallback_to_smtp := false }

/-- Find the `ir.mail_server` row with the given id (first match). -/
def lookupServer (servers : List (Nat × MailServerState)) (sid : Nat) :
    Option MailServerState :=
  match servers with
  | [] => none
  | p :: rest => if p.1 = sid then some p.2 else lookupServer rest sid

/-- Browse an `ir.mail_server` record by id. -/
def getServer (servers : List (Nat × MailServerState)) (sid : Nat) : MailServerState :=
  (lookupServer servers sid).getD defaultMailServer

/-- The `search([('use_graph_api', '=', True)], order='sequence', limit=1)`
of `models/mail_mail.py` line 55: id of the first Graph-enabled server. -/
def searchGraphServer (servers : List (Nat × MailServerState)) : Option Nat :=
  (servers.find? (fun p => p.2.use_graph_api)).map (fun p => p.1)

/-- Replace the state of the server with the given id. -/
def setServerState (servers : List (Nat × MailServerState)) (sid : Nat)
    (s : MailServerState) : List (Nat × MailServerState) :=
  servers.map (fun p => if p.1 = sid then (p.1, s) else p)

/-- Processing of a single mail inside the Graph branch of
`MailMail._send` (`models/mail_mail.py`, lines 72-278): mark the mail
attempted, refresh the token if needed, fail fast on missing recipients,
build the payload and post it, then record the delivery state.  A
`UserError` escaping the token refresh is caught by the enclosing
`except` (line 272) and recorded as the failure reason.  Returns the
updated mail, the updated server record, and the requests issued. -/
def processMailGraph (now : Time) (env : MailEnv) (server : MailServerState)
    (mail : MailMessage) (o : MailOracle) :
    MailMessage × MailServerState × List Event :=
  let mail := { mail with graph_api_attempted := true }
  match refreshTokenIfNeeded now server o.tokenResp1 o.tokenResp2 with
  | (Except.error err, tr) =>
      ({ mail with state := MailState.exception
                   failure_reason := refreshErrorMessage err }, server, tr)
  | (Except.ok (server, _), tr) =>
      if mail.email_to = "" ∧ mail.recipient_ids = [] then
        ({ mail with state := MailState.exception
                     failure_reason := "No recipient specified" }, server, tr)
      else
        let from_email :=
          if server.ms_sender_email ≠ "" then server.ms_sender_email
          else stripDisplayName (orString mail.email_from env.company_email)
        let subject := mail.subject
        let body := orString mail.body_html (orString mail.body "<p></p>")
        let contentType := if mail.body_html ≠ "" then "HTML" else "Text"
        let graphUrl := "https://graph.microsoft.com/v1.0/users/" ++ from_email ++ "/sendMail"
        let toRecipients :=
          parseAddressList mail.email_to ++
            (mail.recipient_ids.filter (fun p => p.email ≠ "")).map (fun p => p.email)
        let ccRecipients := parseAddressList mail.email_cc
        let payload : GraphPayload :=
          { subject := subject, contentType := contentType, content := body
            toRecipients := toRecipients, ccRecipients := ccRecipients
            fromAddress := from_email
            attachments := (buildAttachments mail.attachment_ids).1
            saveToSentItems := "true" }
        let ev := Event.graphSend (some mail.id) graphUrl server.ms_access_token payload 10
        match o.sendResp with
        | SendOutcome.http status text =>
            if status = 200 ∨ status = 202 then
              ({ mail with state := MailState.sent }, server, tr ++ [ev])
            else
              ({ mail with state := MailState.exception
                           failure_reason := "Failed to send email: " ++ text },
               server, tr ++ [ev])
        | SendOutcome.timedOut =>
            ({ mail with state := MailState.exception
                         failure_reason := "Timeout while sending email via Microsoft Graph API" },
             server, tr ++ [ev])
        | SendOutcome.requestError text =>
            ({ mail with state := MailState.exception
                         failure_reason := "Request error sending email via Microsoft Graph API: " ++ text },
             server, tr ++ [ev])

/-- Append ids under a key of the insertion-ordered dict
`mail_by_server` (`dict.setdefault(k, []).append/extend`). -/
def assocAppend (l : List (Nat × List Nat)) (k : Nat) (v : List Nat) :
    List (Nat × List Nat) :=
  if l.any (fun p => p.1 = k) then
    l.map (fun p => if p.1 = k then (p.1, p.2 ++ v) else p)
  else l ++ [(k, v)]

/-- The grouping pass of `MailMail._send` (`models/mail_mail.py`, lines
39-51): mails already attempted against Graph go to `mail_without_server`;
the rest are grouped by their assigned server, keeping those without one
in `mail_without_server`. -/
def partitionByServer (mails : List MailMessage) :
    List (Nat × List Nat) × List Nat :=
  mails.foldl
    (fun acc m =>
      if m.graph_api_attempted then (acc.1, acc.2 ++ [m.id])
      else
        match m.mail_server_id with
        | some sid => (assocAppend acc.1 sid [m.id], acc.2)
        | none => (acc.1, acc.2 ++ [m.id]))
    ([], [])

/-- Mutable store threaded through a `_send` run: the `mail.mail` rows, the
`ir.mail_server` rows, and the requests issued so far. -/
structure DispatchState where
  db : List MailMessage
  servers : List (Nat × MailServerState)
  events : List Event
  deriving Repr, DecidableEq

/-- A `mail.mail` record browsed by an id that matches no row. -/
def defaultMailMessage : MailMessage :=
  { id := 0, state := MailState.outgoing, failure_reason := "", email_from := ""
    email_to := "", email_cc := "", recipient_ids := [], subject := ""
    body := "", body_html := "", attachment_ids := [], mail_server_id := none
    graph_api_attempted := false }

/-- Browse a `mail.mail` row by id. -/
def getMail (db : List MailMessage) (i : Nat) : MailMessage :=
  ((db.find? (fun m => m.id = i))).getD defaultMailMessage

/-- Write to the `mail.mail` row with the given id. -/
def updateMail (db : List MailMessage) (i : Nat) (f : MailMessage → MailMessage) :
    List MailMessage :=
  db.map (fun m => if m.id = i then f m else m)

/-- Body of the inner per-mail loop of `_send` (`models/mail_mail.py`,
lines 72-278) as a state transformer: re-browse the server and the mail,
process the mail, and write the results back. -/
def dispatchMailStep (now : Time) (env : MailEnv) (o : Nat → MailOracle)
    (sid : Nat) (st : DispatchState) (i : Nat) : DispatchState :=
  let server := getServer st.servers sid
  let m := getMail st.db i
  let r := processMailGraph now env server m (o i)
  { db := updateMail st.db i (fun _ => r.1)
    servers := setServerState st.servers sid r.2.1
    events := st.events ++ r.2.2 }

/-- Body of the per-server-group loop of `_send` (`models/mail_mail.py`,
lines 66-291): a Graph-enabled server processes its mails one by one; any
other server's batch is delegated to the standard SMTP path. -/
def dispatchServerStep (now : Time) (env : MailEnv) (o : Nat → MailOracle)
    (st : DispatchState) (p : Nat × List Nat) : DispatchState :=
  let server := getServer st.servers p.1
  if server.use_graph_api then
    p.2.foldl (dispatchMailStep now env o p.1) st
  else { st with events := st.events ++ [Event.smtpSend p.2] }

/-- Shallow embedding of the dispatcher `MailMail._send`
(`models/mail_mail.py`, lines 30-305).  `mails` is the recordset `self`
(also serving as the row store), `o` supplies the network responses for
each mail id.  The boolean result of the Python method (the conjunction
with the delegated `super()._send` results) is outside the model; SMTP
delegations are recorded as `smtpSend` events. -/
def mailSend (now : Time) (env : MailEnv) (mails : List MailMessage)
    (o : Nat → MailOracle) : DispatchState :=
  let part := partitionByServer mails
  let step2 :
      (List (Nat × List Nat)) × (List Nat) × (List MailMessage) :=
    if part.2 ≠ [] then
      match searchGraphServer env.servers with
      | some gid =>
          (assocAppend part.1 gid part.2, [],
            part.2.foldl
              (fun db i => updateMail db i (fun m => { m with mail_server_id := some gid }))
              mails)
      | none => (part.1, part.2, mails)
    else (part.1, part.2, mails)
  let st0 : DispatchState := { db := step2.2.2, servers := env.servers, events := [] }
  let st := step2.1.foldl (dispatchServerStep now env o) st0
  if step2.2.1 ≠ [] then
    { st with events := st.events ++ [Event.smtpSend step2.2.1] }
  else st

/-- The flag-reset step of the manual-resend entry point `MailMail.send`
(`models/mail_mail.py`, lines 17-28): clear `graph_api_attempted` on the
mails of the recordset whose state is `outgoing`.  The subsequent delegation
to `super().send` (the host queue logic) is an external collaborator. -/
def sendResetFlags (mails : List MailMessage) : List MailMessage :=
  mails.map
    (fun m =>
      if m.state = MailState.outgoing then { m with graph_api_attempted := false }
      else m)

/-- The override `MailMail.mark_outgoing` (`models/mail_mail.py`, lines
339-344): after delegating to `super().mark_outgoing()` (external), reset
`graph_api_attempted` on every mail of the recordset unconditionally. -/
def markOutgoing (mails : List MailMessage) : List MailMessage :=
  mails.map (fun m => { m with graph_api_attempted := false })

/-- An `email.message.Message` as consumed by `IrMailServer.send_email`:
`to_list` is `message.get_all('To', [])`, `subject` is
`message.get('Subject', '')`, and the MIME body extraction of
`models/mail_server.py` lines 366-388 is abstracted by the extracted body
text and an HTML flag; `message_id` is `message.get('Message-Id')`. -/
structure EmailMessage where
  to_list : List String
  subject : String
  body : String
  isHtml : Bool
  message_id : String
  deriving Repr, DecidableEq

/-- Result of `IrMailServer.send_email`: the Graph path returning the
Message-Id, a fallback delegation to `super().send_email`, the plain
non-Graph delegation, or a raised `UserError`. -/
inductive SendEmailResult where
  | sentGraph (messageId : String)
  | smtpFallback
  | smtpStandard
  | userError (text : String)
  deriving Repr, DecidableEq

/-- The Graph-API branch of `IrMailServer.send_email`
(`models/mail_server.py`, lines 342-454): refresh the token, fall back to
SMTP when no access token is available, post the payload with `timeout=30`
(line 421), and on any failure fall back to SMTP when `fallback_to_smtp`
is set, else raise.  Exceptions raised inside the `try` (including the
non-2xx `UserError` of line 437) are caught at line 442 and re-wrapped,
which the result strings mirror. -/
def sendEmailViaServer (now : Time) (env : MailEnv) (sid : Nat)
    (server : MailServerState) (msg : EmailMessage) (o : MailOracle) :
    SendEmailResult × List (Nat × MailServerState) × List Event :=
  match refreshTokenIfNeeded now server o.tokenResp1 o.tokenResp2 with
        | (Except.error err, tr) =>
            if server.fallback_to_smtp then (SendEmailResult.smtpFallback, env.servers, tr)
            else
              (SendEmailResult.userError
                 ("Failed to send email: " ++ refreshErrorMessage err), env.servers, tr)
        | (Except.ok (server, _), tr) =>
            let servers := setServerState env.servers sid server
            if server.ms_access_token = "" then
              if server.fallback_to_smtp then (SendEmailResult.smtpFallback, servers, tr)
              else
                (SendEmailResult.userError
                   "Microsoft Graph API authentication required. Please authenticate in the mail server settings.",
                 servers, tr)
            else
              let from_email := server.ms_sender_email
              let contentType := if msg.isHtml then "HTML" else "Text"
              let graphUrl :=
                "https://graph.microsoft.com/v1.0/users/" ++ from_email ++ "/sendMail"
              let payload : GraphPayload :=
                { subject := msg.subject, contentType := contentType, content := msg.body
                  toRecipients := msg.to_list, ccRecipients := []
                  fromAddress := from_email, attachments := []
                  saveToSentItems := "true" }
              let ev := Event.graphSend none graphUrl server.ms_access_token payload 30
              match o.sendResp with
              | SendOutcome.http status text =>
                  if status = 200 ∨ status = 202 then
                    (SendEmailResult.sentGraph msg.message_id, servers, tr ++ [ev])
                  else if server.fallback_to_smtp then
                    (SendEmailResult.smtpFallback, servers, tr ++ [ev])
                  else
                    (SendEmailResult.userError
                       ("Failed to send email: " ++ ("Failed to send email: " ++ text)),
                     servers, tr ++ [ev])
              | SendOutcome.timedOut =>
                  if server.fallback_to_smtp then
                    (SendEmailResult.smtpFallback, servers, tr ++ [ev])
                  else
                    (SendEmailResult.userError "Failed to send email: timeout",
                     servers, tr ++ [ev])
              | SendOutcome.requestError text =>
                  if server.fallback_to_smtp then
                    (SendEmailResult.smtpFallback, servers, tr ++ [ev])
                  else
                    (SendEmailResult.userError ("Failed to send email: " ++ text),
                     servers, tr ++ [ev])

/-- Shallow embedding of `IrMailServer.send_email`
(`models/mail_server.py`, lines 315-460): resolve the server following
lines 327-340 (explicit id, else — unless SMTP settings were passed
directly — the first Graph-enabled server), then run the Graph branch on
it, delegating everything else to the standard SMTP path. -/
def sendEmail (now : Time) (env : MailEnv) (mail_server_id : Option Nat)
    (smtp_server : Option String) (msg : EmailMessage) (o : MailOracle) :
    SendEmailResult × List (Nat × MailServerState) × List Event :=
  let serverOpt : Option (Nat × MailServerState) :=
    match mail_server_id with
    | some sid => some (sid, getServer env.servers sid)
    | none =>
        match smtp_server with
        | some _ => none
        | none => env.servers.find? (fun p => p.2.use_graph_api)
  match serverOpt with
  | none => (SendEmailResult.smtpStandard, env.servers, [])
  | some (sid, server) =>
      if ¬ server.use_graph_api then (SendEmailResult.smtpStandard, env.servers, [])
      else sendEmailViaServer now env sid server msg o

/-- Query-string parameters of the OAuth callback route
(`controllers/main.py`, lines 52-72). -/
structure AuthCallbackInput where
  error : Option String
  error_description : Option String
  code : Option String
  state : Option String
  deriving Repr, DecidableEq

/-- Parsed JSON response of the Graph `/me` profile endpoint
(`controllers/main.py`, lines 121-126). -/
structure ProfileResponse where
  status : Nat
  mail : Option String
  userPrincipalName : Option String
  deriving Repr, DecidableEq

/-- Python `d.get('mail') or d.get('userPrincipalName')` with `None`
stored as an empty string. -/
def profileEmail (p : ProfileResponse) : String :=
  orString (p.mail.getD "") (p.userPrincipalName.getD "")

/-- Python `int(s)` restricted to decimal digit strings (the callback
parses back the `state` it generated itself, a record id). -/
def parseNat (s : String) : Option Nat :=
  if s.toList ≠ [] ∧ s.toList.all Char.isDigit then
    some (s.toList.foldl (fun n c => 10 * n + (c.toNat - 48)) 0)
  else none

/-- Page rendered by the callback: `_render_error` or `_render_success`. -/
inductive AuthPage where
  | errorPage (text : String)
  | successPage (text : String)
  deriving Repr, DecidableEq

/-- The success message of `controllers/main.py`, line 131. -/
def authSuccessMessage : String :=
  "Authentication successful! You can now send emails using Microsoft Graph API."

/-- Shallow embedding of
`MicrosoftAuthController.microsoft_auth_callback`
(`controllers/main.py`, lines 52-139): surface a provider `error`
verbatim; validate `code` and `state`; parse `state` into a server id and
load the record; exchange the code at the token endpoint (`tokenResp` is
its response); on HTTP 200 store `access_token`, `refresh_token` and the
computed expiry unconditionally (lines 107-112); then, if no sender email
is configured, try the `/me` profile lookup (`profileResp`), storing the
resolved address on success and ignoring failures.  Returns the rendered
page, the updated server rows and the requests issued. -/
def microsoftAuthCallback (now : Time) (env : MailEnv) (kw : AuthCallbackInput)
    (tokenResp : TokenResponse) (profileResp : ProfileResponse) :
    AuthPage × List (Nat × MailServerState) × List Event :=
  match kw.error with
  | some err =>
      (AuthPage.errorPage (err ++ ": " ++ kw.error_description.getD ""), env.servers, [])
  | none =>
  match kw.code with
  | none =>
      (AuthPage.errorPage "No authorization code received from Microsoft.", env.servers, [])
  | some _ =>
  match kw.state with
  | none =>
      (AuthPage.errorPage "No state parameter received. Authentication failed.",
       env.servers, [])
  | some st =>
  match parseNat st with
  | none => (AuthPage.errorPage "Invalid state parameter.", env.servers, [])
  | some sid =>
      if ¬ env.servers.any (fun p => p.1 = sid) then
        (AuthPage.errorPage "Mail server not found.", env.servers, [])
      else
        let server := getServer env.servers sid
        let reqEv := Event.tokenRequest "authorization_code" 10
        if tokenResp.status ≠ 200 then
          (AuthPage.errorPage
             ("Failed to authenticate with Microsoft Graph API: " ++ tokenResp.text),
           env.servers, [reqEv])
        else
          let server :=
            { server with
              ms_access_token := tokenResp.access_token.getD ""
              ms_refresh_token := tokenResp.refresh_token.getD ""
              ms_token_expiry := some (now + tokenResp.expires_in.getD 3600) }
          let servers := setServerState env.servers sid server
          if server.ms_sender_email = "" then
            let profEv := Event.profileRequest (tokenResp.access_token.getD "") 10
            if profileResp.status = 200 then
              let server := { server with ms_sender_email := profileEmail profileResp }
              (AuthPage.successPage authSuccessMessage,
               setServerState servers sid server, [reqEv, profEv])
            else
              (AuthPage.successPage authSuccessMessage, servers, [reqEv, profEv])
          else
            (AuthPage.successPage authSuccessMessage, servers, [reqEv])

/-! ### Concrete fixtures used by counterexamples and witnesses -/

/-- A successful token-endpoint response carrying no `refresh_token` key. -/
def okResp : TokenResponse :=
  { status := 200, text := "", access_token := some "NEWTOK"
    refresh_token := none, expires_in := some 3600 }

/-- A failing (HTTP 500) token-endpoint response. -/
def resp500 : TokenResponse :=
  { status := 500, text := "oops", access_token := none
    refresh_token := none, expires_in := none }

/-- A Graph-enabled server with complete credentials, a cached access token
valid far into the future, and no stored refresh token. -/
def srvFresh : MailServerState :=
  { use_graph_api := true, ms_client_id := "cid", ms_client_secret := "sec"
    ms_tenant_id := "tid", ms_sender_email := "sender@example.com"
    ms_access_token := "TOK", ms_refresh_token := "", ms_token_expiry := some 100000
    fallback_to_smtp := true }

/-- The fresh server with a stored refresh token and no recorded expiry
(must refresh before use). -/
def srvStale : MailServerState :=
  { srvFresh with ms_refresh_token := "RT", ms_token_expiry := none }

/-- The fresh server with an empty access token (never authorized) but a
future `ms_token_expiry`. -/
def srvEmptyToken : MailServerState :=
  { srvFresh with ms_access_token := "" }

/-- An environment with the single Graph-enabled server `srvFresh` as id 7. -/
def envFresh : MailEnv :=
  { servers := [(7, srvFresh)], company_email := "co@example.com" }

/-- An outgoing mail that was already attempted against Graph
(`graph_api_attempted = true`) and has no assigned transport config. -/
def mailAttempted : MailMessage :=
  { id := 1, state := MailState.outgoing, failure_reason := "", email_from := ""
    email_to := "rcpt@example.com", email_cc := "", recipient_ids := []
    subject := "hi", body := "", body_html := "", attachment_ids := []
    mail_server_id := none, graph_api_attempted := true }

/-- A mail with empty To string and empty structured recipient list. -/
def mailNoRecipients : MailMessage :=
  { mailAttempted with email_to := "", graph_api_attempted := false
                       mail_server_id := some 7 }

/-- An ordinary fresh outgoing mail assigned to server 7. -/
def mailPlain : MailMessage :=
  { mailAttempted with id := 2, graph_api_attempted := false
                       mail_server_id := some 7 }

/-- Oracle answering every request successfully (HTTP 202 send). -/
def okOracle : MailOracle :=
  { tokenResp1 := okResp, tokenResp2 := okResp, sendResp := SendOutcome.http 202 "" }

/-- Whether an event is a Graph `sendMail` call for the given mail id. -/
def isGraphSendFor (i : Nat) : Event → Bool
  | Event.graphSend (some j) _ _ _ _ => j = i
  | _ => false

/-- A message for `send_email` with one recipient. -/
def msgSendEmail : EmailMessage :=
  { to_list := ["rcpt@example.com"], subject := "hi", body := "b"
    isHtml := false, message_id := "mid1" }

/-- Attachment set whose cumulative raw size is one byte over the 35 MB
ceiling: the first two fit exactly, the third is skipped. -/
def attsOverBudget : List Attachment :=
  [{ name := "a.bin", mimetype := "application/pdf", datas := some 18350080 },
   { name := "b.bin", mimetype := "application/pdf", datas := some 18350080 },
   { name := "c.bin", mimetype := "application/pdf", datas := some 1 }]

/-- Attachment set with one over-budget blob and one unreadable blob. -/
def attsMixed : List Attachment :=
  [{ name := "big.bin", mimetype := "application/pdf", datas := some 36700161 },
   { name := "broken.bin", mimetype := "", datas := none },
   { name := "ok.bin", mimetype := "text/plain", datas := some 5 }]

/-- A failed (`exception`-state) mail still flagged as Graph-attempted. -/
def mailFailedFlagged : MailMessage :=
  { mailAttempted with id := 3, state := MailState.exception
                       failure_reason := "boom" }

/-- Callback query string of a successful authorization redirect for
server 7. -/
def kwCallback : AuthCallbackInput :=
  { error := none, error_description := none, code := some "AC", state := some "7" }

/-- An authorization-code exchange response that omits `refresh_token`. -/
def tokNoRefresh : TokenResponse :=
  { status := 200, text := "", access_token := some "AT"
    refresh_token := none, expires_in := some 100 }

/-- A successful `/me` profile response. -/
def profOk : ProfileResponse :=
  { status := 200, mail := some "me@example.com"
    userPrincipalName := some "upn@example.com" }

/-- Environment whose server 7 already holds a non-empty stored refresh
token (to be overwritten by the callback). -/
def envOldRefresh : MailEnv :=
  { servers := [(7, { srvFresh with ms_refresh_token := "OLDRT" })]
    company_email := "" }

/-- Whether an event posts to the Graph send endpoint with an empty
bearer token. -/
def isEmptyBearerSend : Event → Bool
  | Event.graphSend _ _ bearer _ _ => bearer == ""
  | _ => false

/-- The server record produced by a successful `_refresh_oauth_token` run
on `srvStale` fed with `okResp` at time 0. -/
def srvStaleRefreshed : MailServerState :=
  { srvStale with ms_access_token := "NEWTOK", ms_token_expiry := some 3600 }

/-- The property that every Graph send in a request list carries the
dispatcher's 10-second timeout. -/
def eventsBound10 (l : List Event) : Prop :=
  ∀ e ∈ l, e.isGraphSend = true → e.timeoutSecOf = 10

/-- The sendMail URL for the configured sender mailbox of `srvFresh`. -/
def urlSender : String :=
  "https://graph.microsoft.com/v1.0/users/sender@example.com/sendMail"

/-- The payload `_send` builds for `mailPlain` on `srvFresh`. -/
def payloadMailPlain : GraphPayload :=
  { subject := "hi", contentType := "Text", content := "<p></p>"
    toRecipients := ["rcpt@example.com"], ccRecipients := []
    fromAddress := "sender@example.com", attachments := []
    saveToSentItems := "true" }

/-- The payload `send_email` builds for `msgSendEmail` on `srvFresh`. -/
def payloadSendEmail : GraphPayload :=
  { subject := "hi", contentType := "Text", content := "b"
    toRecipients := ["rcpt@example.com"], ccRecipients := []
    fromAddress := "sender@example.com", attachments := []
    saveToSentItems := "true" }

/-! ### Helper lemmas -/

/-- Invariant preservation through `List.foldl`. -/
theorem foldlInvariant {α σ : Type _} (P : σ → Prop) (f : σ → α → σ) :
    ∀ (l : List α) (s : σ), P s → (∀ t a, P t → P (f t a)) → P (l.foldl f s) := by
  intro l
  induction l with
  | nil => intro s h0 _; exact h0
  | cons x xs ih =>
      intro s h0 hstep
      exact ih (f s x) (hstep s x h0) hstep

/-- Every request issued by `_refresh_oauth_token` is a token-endpoint
request with a 10-second timeout. -/
theorem refreshOauthToken_events (now : Time) (s : MailServerState) (r : TokenResponse) :
    ∀ e ∈ (refreshOauthToken now s r).2, ∃ g, e = Event.tokenRequest g 10 := by
  intro e he
  unfold refreshOauthToken at he
  repeat'
    first
      | split at he
      | dsimp only at he
  all_goals
    try simp only [List.mem_singleton, List.not_mem_nil] at he
  all_goals exact ⟨_, he⟩

/-- Every request issued by `refresh_token_if_needed` is a token-endpoint
request with a 10-second timeout. -/
theorem refreshTokenIfNeeded_events (now : Time) (s : MailServerState) (r1 r2 : TokenResponse) :
    ∀ e ∈ (refreshTokenIfNeeded now s r1 r2).2, ∃ g, e = Event.tokenRequest g 10 := by
  have hro := refreshOauthToken_events now s r2
  intro e he
  unfold refreshTokenIfNeeded at he
  rcases hq : refreshOauthToken now s r2 with ⟨res, tr2⟩
  rw [hq] at hro he
  try dsimp only at hro
  cases res with
  | ok p =>
      rcases p with ⟨s2, tok⟩
      repeat'
        first
          | dsimp only at he
          | split at he
      all_goals
        try simp only [List.mem_cons, List.mem_singleton, List.not_mem_nil, or_false] at he
      all_goals
        first
          | exact hro e he
          | exact ⟨_, he⟩
          | (rcases he with he | he
             · exact ⟨_, he⟩
             · exact hro e he)
  | error err =>
      repeat'
        first
          | dsimp only at he
          | split at he
      all_goals
        try simp only [List.mem_cons, List.mem_singleton, List.not_mem_nil, or_false] at he
      all_goals
        first
          | exact hro e he
          | exact ⟨_, he⟩
          | (rcases he with he | he
             · exact ⟨_, he⟩
             · exact hro e he)

/-- Inversion of a successful `_refresh_oauth_token` run: the persisted
fields are exactly those of the `values` dict of lines 199-208. -/
theorem refreshOauthToken_ok_inv (now : Time) (s : MailServerState) (r : TokenResponse)
    (s2 : MailServerState) (tok : Option String) (tr : List Event)
    (h : refreshOauthToken now s r = (Except.ok (s2, tok), tr)) :
    s2.ms_access_token = r.access_token.getD "" ∧
    s2.ms_token_expiry = some (now + r.expires_in.getD 3600) ∧
    s2.ms_refresh_token =
      (if r.refresh_token.getD "" ≠ "" then r.refresh_token.getD ""
       else s.ms_refresh_token) ∧
    tok = r.access_token := by
  unfold refreshOauthToken at h
  repeat' split at h
  all_goals
    first
      | (simp at h
         done)
      | (simp only [Prod.mk.injEq, Except.ok.injEq] at h
         obtain ⟨⟨hs, ht⟩, _⟩ := h
         subst hs
         subst ht
         simp_all)

/-- Inversion of a successful `refresh_token_if_needed` run: the stored
refresh token is either untouched, or replaced following the presence
check on `r1` (lines 546-548), or replaced by `_refresh_oauth_token`
following the truthiness check on `r2` (lines 205-208). -/
theorem refreshTokenIfNeeded_ok_inv (now : Time) (s : MailServerState)
    (r1 r2 : TokenResponse) (s2 : MailServerState) (b : Bool) (tr : List Event)
    (h : refreshTokenIfNeeded now s r1 r2 = (Except.ok (s2, b), tr)) :
    s2 = s ∨
    (s2.ms_access_token = r1.access_token.getD "" ∧
     s2.ms_token_expiry = some (now + r1.expires_in.getD 3600) ∧
     s2.ms_refresh_token =
       (if r1.refresh_token.isSome then r1.refresh_token.getD ""
        else s.ms_refresh_token)) ∨
    (s2.ms_access_token = r2.access_token.getD "" ∧
     s2.ms_token_expiry = some (now + r2.expires_in.getD 3600) ∧
     s2.ms_refresh_token =
       (if r2.refresh_token.getD "" ≠ "" then r2.refresh_token.getD ""
        else s.ms_refresh_token)) := by
  unfold refreshTokenIfNeeded at h
  rcases hq : refreshOauthToken now s r2 with ⟨res, tr2⟩
  rw [hq] at h
  cases res with
  | ok p =>
      rcases p with ⟨s3, tok⟩
      have hinv := refreshOauthToken_ok_inv now s r2 s3 tok tr2 hq
      repeat'
        first
          | dsimp only at h
          | split at h
      all_goals
        first
          | (simp at h
             done)
          | (simp only [Prod.mk.injEq, Except.ok.injEq] at h
             obtain ⟨⟨hs, hb⟩, htr⟩ := h
             subst hs
             first
               | (left; rfl)
               | (right; left; simp_all; done)
               | (right; right
                  exact ⟨hinv.1, hinv.2.1, hinv.2.2.1⟩))
  | error err =>
      repeat'
        first
          | dsimp only at h
          | split at h
      all_goals
        first
          | (simp at h
             done)
          | (simp only [Prod.mk.injEq, Except.ok.injEq] at h
             obtain ⟨⟨hs, hb⟩, htr⟩ := h
             subst hs
             first
               | (left; rfl)
               | (right; left; simp_all; done))

/-- Raw payload size distributes over append. -/
theorem sumRaw_append (l1 l2 : List AttachmentData) :
    sumRaw (l1 ++ l2) = sumRaw l1 + sumRaw l2 := by
  simp [sumRaw]

/-- Invariant of the attachment loop: starting from an accumulator whose
`total_size` equals the raw size of the accumulated payload and respects
the 35 MB ceiling, the final `total_size` still equals the payload's raw
size and respects the ceiling; accumulated entries persist; every
processed attachment is either included under its name or recorded in the
skip list; and an attachment with an unreadable blob always lands in the
skip list with the `" (error)"` suffix. -/
theorem buildAttachmentsAux_spec (l : List Attachment) :
    ∀ (outAtts : List AttachmentData) (skipped : List String) (total : Nat),
      total = sumRaw outAtts → total ≤ maxAttachmentSize →
      (buildAttachmentsAux l outAtts skipped total).2.2 =
          sumRaw (buildAttachmentsAux l outAtts skipped total).1
    ∧ (buildAttachmentsAux l outAtts skipped total).2.2 ≤ maxAttachmentSize
    ∧ (∀ x ∈ skipped, x ∈ (buildAttachmentsAux l outAtts skipped total).2.1)
    ∧ (∀ d ∈ outAtts, d ∈ (buildAttachmentsAux l outAtts skipped total).1)
    ∧ (∀ a ∈ l,
         (∃ d ∈ (buildAttachmentsAux l outAtts skipped total).1, d.name = a.name)
         ∨ a.name ∈ (buildAttachmentsAux l outAtts skipped total).2.1
         ∨ (a.name ++ " (error)") ∈ (buildAttachmentsAux l outAtts skipped total).2.1)
    ∧ (∀ a ∈ l, a.datas = none →
         (a.name ++ " (error)") ∈ (buildAttachmentsAux l outAtts skipped total).2.1) := by
  induction l with
  | nil =>
      intro outAtts skipped total ht hle
      refine ⟨ht, hle, ?_, ?_, ?_, ?_⟩ <;> simp [buildAttachmentsAux]
  | cons a rest ih =>
      intro outAtts skipped total ht hle
      by_cases hc : total + a.datas.getD 0 > maxAttachmentSize
      · have hstep :
            buildAttachmentsAux (a :: rest) outAtts skipped total =
              buildAttachmentsAux rest outAtts (skipped ++ [a.name]) total := by
          rw [buildAttachmentsAux]
          simp [hc]
        rw [hstep]
        obtain ⟨h1, h2, h3, h4, h5, h6⟩ := ih outAtts (skipped ++ [a.name]) total ht hle
        refine ⟨h1, h2, ?_, h4, ?_, ?_⟩
        · intro x hx
          exact h3 x (List.mem_append_left _ hx)
        · intro a2 ha2
          rcases List.mem_cons.mp ha2 with rfl | ha2
          · exact Or.inr (Or.inl (h3 a2.name (by simp)))
          · exact h5 a2 ha2
        · intro a2 ha2 hnone
          rcases List.mem_cons.mp ha2 with rfl | ha2
          · exfalso
            rw [hnone] at hc
            simp at hc
            omega
          · exact h6 a2 ha2 hnone
      · cases hd : a.datas with
        | none =>
            have hc0 : ¬ total > maxAttachmentSize := by
              rw [hd] at hc
              simpa using hc
            have hstep :
                buildAttachmentsAux (a :: rest) outAtts skipped total =
                  buildAttachmentsAux rest outAtts
                    (skipped ++ [a.name ++ " (error)"]) total := by
              rw [buildAttachmentsAux, hd]
              simp [hc0]
            rw [hstep]
            obtain ⟨h1, h2, h3, h4, h5, h6⟩ :=
              ih outAtts (skipped ++ [a.name ++ " (error)"]) total ht hle
            refine ⟨h1, h2, ?_, h4, ?_, ?_⟩
            · intro x hx
              exact h3 x (List.mem_append_left _ hx)
            · intro a2 ha2
              rcases List.mem_cons.mp ha2 with rfl | ha2
              · exact Or.inr (Or.inr (h3 (a2.name ++ " (error)") (by simp)))
              · exact h5 a2 ha2
            · intro a2 ha2 hnone
              rcases List.mem_cons.mp ha2 with rfl | ha2
              · exact h3 (a2.name ++ " (error)") (by simp)
              · exact h6 a2 ha2 hnone
        | some n =>
            have hcn : ¬ total + n > maxAttachmentSize := by
              rw [hd] at hc
              simpa using hc
            have hstep :
                buildAttachmentsAux (a :: rest) outAtts skipped total =
                  buildAttachmentsAux rest
                    (outAtts ++
                      [⟨a.name, orString a.mimetype "application/octet-stream", n⟩])
                    skipped (total + n) := by
              rw [buildAttachmentsAux, hd]
              simp [hcn]
            rw [hstep]
            have ht2 :
                total + n =
                  sumRaw (outAtts ++
                    [⟨a.name, orString a.mimetype "application/octet-stream", n⟩]) := by
              rw [sumRaw_append, ← ht]
              simp [sumRaw]
            have hle2 : total + n ≤ maxAttachmentSize := by
              omega
            obtain ⟨h1, h2, h3, h4, h5, h6⟩ :=
              ih (outAtts ++
                    [⟨a.name, orString a.mimetype "application/octet-stream", n⟩])
                 skipped (total + n) ht2 hle2
            refine ⟨h1, h2, h3, ?_, ?_, ?_⟩
            · intro d hdm
              exact h4 d (List.mem_append_left _ hdm)
            · intro a2 ha2
              rcases List.mem_cons.mp ha2 with rfl | ha2
              · exact Or.inl
                  ⟨⟨a2.name, orString a2.mimetype "application/octet-stream", n⟩,
                    h4 _ (by simp), rfl⟩
              · exact h5 a2 ha2
            · intro a2 ha2 hnone
              rcases List.mem_cons.mp ha2 with rfl | ha2
              · exact absurd hd (by rw [hnone]; simp)
              · exact h6 a2 ha2 hnone

/-- The empty request list satisfies the 10-second bound. -/
theorem eventsBound10_nil : eventsBound10 [] := by
  intro e he
  simp at he

/-- The 10-second bound is preserved by concatenation. -/
theorem eventsBound10_append (l1 l2 : List Event)
    (h1 : eventsBound10 l1) (h2 : eventsBound10 l2) :
    eventsBound10 (l1 ++ l2) := by
  intro e he hgs
  rcases List.mem_append.mp he with he | he
  · exact h1 e he hgs
  · exact h2 e he hgs

/-- Every request issued while processing one mail in `_send` is either a
token-endpoint request or the one Graph send, which carries the 10-second
timeout of line 228. -/
theorem processMailGraph_events (now : Time) (env : MailEnv)
    (server : MailServerState) (mail : MailMessage) (o : MailOracle) :
    ∀ e ∈ (processMailGraph now env server mail o).2.2,
      (∃ g, e = Event.tokenRequest g 10) ∨
      (e.isGraphSend = true ∧ e.timeoutSecOf = 10) := by
  have hev := refreshTokenIfNeeded_events now server o.tokenResp1 o.tokenResp2
  intro e he
  unfold processMailGraph at he
  rcases hq : refreshTokenIfNeeded now server o.tokenResp1 o.tokenResp2 with ⟨res, tr⟩
  rw [hq] at hev he
  dsimp only at hev
  cases res with
  | error err =>
      dsimp only at he
      exact Or.inl (hev e he)
  | ok p =>
      rcases p with ⟨s2, b⟩
      repeat'
        first
          | dsimp only at he
          | split at he
      all_goals
        try simp only [List.mem_append, List.mem_singleton, List.not_mem_nil,
          or_false] at he
      all_goals
        first
          | exact Or.inl (hev e he)
          | (rcases he with he | he
             · exact Or.inl (hev e he)
             · subst he
               exact Or.inr ⟨rfl, rfl⟩)
          | (subst he
             exact Or.inr ⟨rfl, rfl⟩)

/-- The request trace of one mail satisfies the 10-second bound. -/
theorem processMailGraph_bound10 (now : Time) (env : MailEnv)
    (server : MailServerState) (mail : MailMessage) (o : MailOracle) :
    eventsBound10 (processMailGraph now env server mail o).2.2 := by
  intro e he hgs
  rcases processMailGraph_events now env server mail o e he with ⟨g, hg⟩ | ⟨_, h10⟩
  · subst hg
    simp [Event.isGraphSend] at hgs
  · exact h10

/-- One smtp delegation event satisfies the 10-second bound vacuously. -/
theorem eventsBound10_smtp (ids : List Nat) :
    eventsBound10 [Event.smtpSend ids] := by
  intro e he hgs
  simp only [List.mem_singleton] at he
  subst he
  simp [Event.isGraphSend] at hgs

/-- The inner per-mail step of `_send` preserves the 10-second bound. -/
theorem dispatchMailStep_bound10 (now : Time) (env : MailEnv) (o : Nat → MailOracle)
    (sid : Nat) (st : DispatchState) (i : Nat) (hp : eventsBound10 st.events) :
    eventsBound10 (dispatchMailStep now env o sid st i).events := by
  unfold dispatchMailStep
  exact eventsBound10_append _ _ hp (processMailGraph_bound10 now env _ _ (o i))

/-- The per-server step of `_send` preserves the 10-second bound. -/
theorem dispatchServerStep_bound10 (now : Time) (env : MailEnv) (o : Nat → MailOracle)
    (st : DispatchState) (p : Nat × List Nat) (hp : eventsBound10 st.events) :
    eventsBound10 (dispatchServerStep now env o st p).events := by
  unfold dispatchServerStep
  dsimp only
  split
  · exact foldlInvariant (fun st : DispatchState => eventsBound10 st.events)
      (dispatchMailStep now env o p.1) p.2 st hp
      (fun t i ht => dispatchMailStep_bound10 now env o p.1 t i ht)
  · exact eventsBound10_append _ _ hp (eventsBound10_smtp p.2)

/-- Every Graph send issued by the dispatcher `_send` carries a 10-second
timeout. -/
theorem mailSend_events (now : Time) (env : MailEnv) (mails : List MailMessage)
    (o : Nat → MailOracle) :
    eventsBound10 (mailSend now env mails o).events := by
  unfold mailSend
  dsimp only
  have hfold :
      ∀ (groups : List (Nat × List Nat)) (st0 : DispatchState),
        eventsBound10 st0.events →
        eventsBound10 (groups.foldl (dispatchServerStep now env o) st0).events :=
    fun groups st0 h0 =>
      foldlInvariant (fun st : DispatchState => eventsBound10 st.events)
        (dispatchServerStep now env o) groups st0 h0
        (fun t p ht => dispatchServerStep_bound10 now env o t p ht)
  repeat' split
  all_goals
    first
      | (refine eventsBound10_append _ _ ?_ (eventsBound10_smtp _)
         refine hfold _ _ ?_
         intro e he hgs
         exact absurd he (List.not_mem_nil e))
      | (refine hfold _ _ ?_
         intro e he hgs
         exact absurd he (List.not_mem_nil e))

/-- Every Graph send issued by the Graph branch of
`IrMailServer.send_email` carries the 30-second timeout of line 421. -/
theorem sendEmailViaServer_events (now : Time) (env : MailEnv) (sid : Nat)
    (server : MailServerState) (msg : EmailMessage) (o : MailOracle) :
    ∀ e ∈ (sendEmailViaServer now env sid server msg o).2.2,
      e.isGraphSend = true → e.timeoutSecOf = 30 := by
  intro e he hgs
  unfold sendEmailViaServer at he
  rcases hq : refreshTokenIfNeeded now server o.tokenResp1 o.tokenResp2 with ⟨res, tr⟩
  rw [hq] at he
  have hev := refreshTokenIfNeeded_events now server o.tokenResp1 o.tokenResp2
  rw [hq] at hev
  dsimp only at hev
  have htok : ∀ x ∈ tr, x.isGraphSend = true → x.timeoutSecOf = 30 := by
    intro x hx hgsx
    obtain ⟨g, hg⟩ := hev x hx
    subst hg
    simp [Event.isGraphSend] at hgsx
  cases res with
  | error err =>
      repeat'
        first
          | dsimp only at he
          | split at he
      all_goals exact htok e he hgs
  | ok p =>
      rcases p with ⟨s2, b⟩
      repeat'
        first
          | dsimp only at he
          | split at he
      all_goals
        try simp only [List.mem_append, List.mem_singleton, List.not_mem_nil,
          or_false] at he
      all_goals
        first
          | exact htok e he hgs
          | (rcases he with he | he
             · exact htok e he hgs
             · subst he
               rfl)
          | (subst he
             rfl)

/-- Every Graph send issued by `IrMailServer.send_email` carries the
30-second timeout. -/
theorem sendEmail_events (now : Time) (env : MailEnv) (msid : Option Nat)
    (ssrv : Option String) (msg : EmailMessage) (o : MailOracle) :
    ∀ e ∈ (sendEmail now env msid ssrv msg o).2.2,
      e.isGraphSend = true → e.timeoutSecOf = 30 := by
  intro e he hgs
  unfold sendEmail at he
  repeat'
    first
      | dsimp only at he
      | split at he
  all_goals
    first
      | (exfalso
         exact absurd he (List.not_mem_nil e))
      | exact sendEmailViaServer_events now env _ _ msg o e he hgs

/-- Looking up a server after `setServerState` on its id yields the new
record, provided the id is present. -/
theorem lookupServer_setServerState (servers : List (Nat × MailServerState))
    (sid : Nat) (s : MailServerState)
    (h : servers.any (fun p => p.1 = sid) = true) :
    lookupServer (setServerState servers sid s) sid = some s := by
  induction servers with
  | nil => simp at h
  | cons hd tl ih =>
      by_cases hk : hd.1 = sid
      · simp [setServerState, lookupServer, hk]
      · simp only [List.any_cons, Bool.or_eq_true, decide_eq_true_eq] at h
        rcases h with h | h
        · exact absurd h hk
        · simp only [setServerState, List.map_cons, if_neg hk] at *
          rw [lookupServer]
          rw [if_neg hk]
          exact ih h

/-- `setServerState` does not change the set of ids present. -/
theorem any_setServerState (servers : List (Nat × MailServerState))
    (sid sid2 : Nat) (s : MailServerState) :
    ((setServerState servers sid2 s).any (fun p => p.1 = sid)) =
      (servers.any (fun p => p.1 = sid)) := by
  induction servers with
  | nil => rfl
  | cons hd tl ih =>
      by_cases hk : hd.1 = sid2
      · simp only [setServerState, List.map_cons, if_pos hk, List.any_cons] at *
        rw [ih]
      · simp only [setServerState, List.map_cons, if_neg hk, List.any_cons] at *
        rw [ih]

/-! ### Claim theorems -/

/-- C3: for every config with a non-empty `access_token` and a recorded
`token_expiry` more than 5 minutes in the future, `_get_oauth_token` (the
spec's `ensure_valid_token`) returns the cached access token and issues no
network request; otherwise it performs a token refresh, i.e. behaves
exactly as `_refresh_oauth_token`.  The guard of `refresh_token_if_needed`
likewise issues no network request whenever the recorded expiry is more
than 5 minutes in the future. -/
theorem c3_ensure_valid_token_cached (now : Time) (s : MailServerState)
    (resp r1 r2 : TokenResponse) :
    (tokenCachedValid now s = true →
        getOauthToken now s resp = (Except.ok (s, some s.ms_access_token), []))
  ∧ (tokenCachedValid now s = false →
        getOauthToken now s resp = refreshOauthToken now s resp)
  ∧ (∀ expiry, s.ms_token_expiry = some expiry → expiry > now + 300 →
        (refreshTokenIfNeeded now s r1 r2).2 = []) := by
  refine ⟨fun h => ?_, fun h => ?_, fun expiry he hgt => ?_⟩
  · simp [getOauthToken, h]
  · simp [getOauthToken, h]
  · unfold refreshTokenIfNeeded
    rw [he]
    have hd : ¬ (expiry ≤ now + 300) := not_le.mpr hgt
    by_cases hu : s.use_graph_api
    · simp [hu, hd]
    · simp [hu]

/-- Witness for C3: `srvFresh` holds a token valid until time 100000, so
at time 0 the cached token is returned; `srvStale` records no expiry, so
the refresher is invoked. -/
theorem c3_ensure_valid_token_cached_witness :
    getOauthToken 0 srvFresh okResp = (Except.ok (srvFresh, some "TOK"), [])
  ∧ getOauthToken 0 srvStale okResp = refreshOauthToken 0 srvStale okResp := by
  constructor
  · exact (c3_ensure_valid_token_cached 0 srvFresh okResp okResp okResp).1 (by decide)
  · exact (c3_ensure_valid_token_cached 0 srvStale okResp okResp okResp).2.1 (by decide)

/-- C4: on every successful token refresh whose provider response omits
`refresh_token`, the stored refresh token is left unchanged while the
access token and expiry are overwritten; conversely, the stored refresh
token changes only if the response carries a `refresh_token` key.  Both
the `_refresh_oauth_token` update (lines 199-211, truthiness check) and
the `refresh_token_if_needed` update (lines 540-550, presence check, with
its `_refresh_oauth_token` fallback) are covered. -/
theorem c4_refresh_preserves_refresh_token (now : Time) (s : MailServerState)
    (r1 r2 : TokenResponse) :
    (∀ s2 tok tr, r1.refresh_token = none →
        refreshOauthToken now s r1 = (Except.ok (s2, tok), tr) →
        s2.ms_refresh_token = s.ms_refresh_token ∧
        s2.ms_access_token = r1.access_token.getD "" ∧
        s2.ms_token_expiry = some (now + r1.expires_in.getD 3600))
  ∧ (∀ s2 b tr, r1.refresh_token = none → r2.refresh_token = none →
        refreshTokenIfNeeded now s r1 r2 = (Except.ok (s2, b), tr) →
        s2.ms_refresh_token = s.ms_refresh_token)
  ∧ (∀ s2 tok tr,
        refreshOauthToken now s r1 = (Except.ok (s2, tok), tr) →
        s2.ms_refresh_token ≠ s.ms_refresh_token → r1.refresh_token.isSome = true)
  ∧ (∀ s2 b tr,
        refreshTokenIfNeeded now s r1 r2 = (Except.ok (s2, b), tr) →
        s2.ms_refresh_token ≠ s.ms_refresh_token →
        r1.refresh_token.isSome = true ∨ r2.refresh_token.isSome = true) := by
  refine ⟨?_, ?_, ?_, ?_⟩
  · intro s2 tok tr hnone h
    obtain ⟨ha, he2, hr, _⟩ := refreshOauthToken_ok_inv now s r1 s2 tok tr h
    refine ⟨?_, ha, he2⟩
    rw [hnone] at hr
    simpa using hr
  · intro s2 b tr h1 h2 h
    rcases refreshTokenIfNeeded_ok_inv now s r1 r2 s2 b tr h with
      hs | ⟨_, _, hr⟩ | ⟨_, _, hr⟩
    · rw [hs]
    · rw [h1] at hr
      simpa using hr
    · rw [h2] at hr
      simpa using hr
  · intro s2 tok tr h hne
    obtain ⟨_, _, hr, _⟩ := refreshOauthToken_ok_inv now s r1 s2 tok tr h
    cases hopt : r1.refresh_token with
    | none =>
        rw [hopt] at hr
        simp at hr
        exact absurd hr hne
    | some v => simp [hopt]
  · intro s2 b tr h hne
    rcases refreshTokenIfNeeded_ok_inv now s r1 r2 s2 b tr h with
      hs | ⟨_, _, hr⟩ | ⟨_, _, hr⟩
    · exact absurd (by rw [hs]) hne
    · cases hopt : r1.refresh_token with
      | none =>
          rw [hopt] at hr
          simp at hr
          exact absurd hr hne
      | some v => exact Or.inl (by simp [hopt])
    · cases hopt : r2.refresh_token with
      | none =>
          rw [hopt] at hr
          simp at hr
          exact absurd hr hne
      | some v => exact Or.inr (by simp [hopt])

/-- Witness for C4: refreshing `srvStale` (stored refresh token "RT") with
the `okResp` response, which omits `refresh_token`, keeps "RT" while
overwriting token and expiry. -/
theorem c4_refresh_preserves_refresh_token_witness :
    srvStaleRefreshed.ms_refresh_token = srvStale.ms_refresh_token ∧
    srvStaleRefreshed.ms_access_token = okResp.access_token.getD "" ∧
    srvStaleRefreshed.ms_token_expiry = some (0 + okResp.expires_in.getD 3600) :=
  (c4_refresh_preserves_refresh_token 0 srvStale okResp okResp).1
    srvStaleRefreshed (some "NEWTOK") [Event.tokenRequest "refresh_token" 10]
    rfl rfl

/-- C1, evaluated at the failing input: `mailAttempted` enters `_send`
with `graph_api_attempted = true`, yet the dispatcher issues another
Graph API send for it (after re-assigning the searched Graph server in
lines 54-62) and never delegates it to the SMTP path. -/
theorem c1_attempted_mail_retried_on_graph :
    mailAttempted.graph_api_attempted = true
  ∧ ((mailSend 0 envFresh [mailAttempted] (fun _ => okOracle)).events.any
        (isGraphSendFor 1)) = true
  ∧ ((mailSend 0 envFresh [mailAttempted] (fun _ => okOracle)).events.all
        (fun e => e.isNetworkCall)) = true := by
  refine ⟨by decide, by decide, by decide⟩

/-- C2, evaluated at the failing input: when the refresh-token grant of
`refresh_token_if_needed` receives HTTP 500, the fallback call to
`_refresh_oauth_token` issues a second refresh-token-grant request (the
stored refresh token is still present), not a client-credentials one. -/
theorem c2_fallback_repeats_refresh_grant :
    srvStale.ms_refresh_token ≠ ""
  ∧ resp500.status ≠ 200
  ∧ (refreshTokenIfNeeded 0 srvStale resp500 okResp).2 =
      [Event.tokenRequest "refresh_token" 10, Event.tokenRequest "refresh_token" 10]
  ∧ ((refreshTokenIfNeeded 0 srvStale resp500 okResp).2.all
        (fun e => decide (e ≠ Event.tokenRequest "client_credentials" 10))) = true := by
  refine ⟨by decide, by decide, by decide, by decide⟩

/-- C8, evaluated at the failing input: `srvEmptyToken` has an empty
access token but a future `ms_token_expiry`, so `refresh_token_if_needed`
returns without refreshing and the dispatcher posts the send request with
an empty bearer token. -/
theorem c8_send_with_empty_bearer :
    srvEmptyToken.ms_access_token = ""
  ∧ srvEmptyToken.ms_token_expiry = some 100000
  ∧ (100000 : Time) > 0 + 300
  ∧ ((processMailGraph 0 envFresh srvEmptyToken mailPlain okOracle).2.2.any
        isEmptyBearerSend) = true
  ∧ ((processMailGraph 0 envFresh srvEmptyToken mailPlain okOracle).2.2.all
        (fun e => e.isGraphSend)) = true := by
  refine ⟨by decide, by decide, by decide, by decide, by decide⟩

/-- C5 counterexample: the claim asserts zero network calls for a
recipient-less mail, but with a stale token (`srvStale`) the dispatcher
issues a token-endpoint request (from `refresh_token_if_needed`, line 87)
before reaching the recipient check at line 94. -/
theorem c5_counterexample_token_call_made :
    (processMailGraph 0 envFresh srvStale mailNoRecipients okOracle).1.state =
        MailState.exception
  ∧ (processMailGraph 0 envFresh srvStale mailNoRecipients okOracle).1.failure_reason =
        "No recipient specified"
  ∧ (processMailGraph 0 envFresh srvStale mailNoRecipients okOracle).2.2 =
        [Event.tokenRequest "refresh_token" 10]
  ∧ ((processMailGraph 0 envFresh srvStale mailNoRecipients okOracle).2.2.any
        (fun e => e.isNetworkCall)) = true := by
  refine ⟨by decide, by decide, by decide, by decide⟩

/-- C5 amended: a mail with empty To string and empty structured recipient
list, whose token refresh does not raise, is failed fast with state
`exception` (the spec's "failed") and reason exactly "No recipient
specified", and no Graph API send call is issued for it (only token-refresh
requests may precede the recipient check). -/
theorem c5_no_recipient_fails_fast (now : Time) (env : MailEnv)
    (server : MailServerState) (m : MailMessage) (o : MailOracle)
    (hto : m.email_to = "") (hrc : m.recipient_ids = [])
    (s2 : MailServerState) (b : Bool) (tr : List Event)
    (hok : refreshTokenIfNeeded now server o.tokenResp1 o.tokenResp2 =
        (Except.ok (s2, b), tr)) :
    (processMailGraph now env server m o).1.state = MailState.exception
  ∧ (processMailGraph now env server m o).1.failure_reason = "No recipient specified"
  ∧ ((processMailGraph now env server m o).2.2.all (fun e => !e.isGraphSend)) = true := by
  have hev := refreshTokenIfNeeded_events now server o.tokenResp1 o.tokenResp2
  rw [hok] at hev
  dsimp only at hev
  unfold processMailGraph
  rw [hok]
  dsimp only
  split
  · refine ⟨rfl, rfl, ?_⟩
    rw [List.all_eq_true]
    intro e he
    obtain ⟨g, hg⟩ := hev e he
    subst hg
    rfl
  · next hcond => exact absurd ⟨hto, hrc⟩ hcond

/-- Witness for C5 amended at concrete inputs: a recipient-less mail on a
server with a fresh cached token is failed with the exact reason and an
empty request trace. -/
theorem c5_no_recipient_fails_fast_witness :
    (processMailGraph 0 envFresh srvFresh mailNoRecipients okOracle).1.state =
        MailState.exception
  ∧ (processMailGraph 0 envFresh srvFresh mailNoRecipients okOracle).1.failure_reason =
        "No recipient specified"
  ∧ ((processMailGraph 0 envFresh srvFresh mailNoRecipients okOracle).2.2.all
        (fun e => !e.isGraphSend)) = true :=
  c5_no_recipient_fails_fast 0 envFresh srvFresh mailNoRecipients okOracle rfl rfl
    srvFresh true [] rfl

/-- C9 counterexample: `MailMail.send` resets the flag only for mails in
state `outgoing` (line 20), so a failed (`exception`-state, hence not yet
sent) mail keeps `graph_api_attempted = true`, refuting "reset for every
message whose state is not yet sent". -/
theorem c9_counterexample_exception_not_reset :
    mailFailedFlagged.state ≠ MailState.sent
  ∧ mailFailedFlagged.graph_api_attempted = true
  ∧ sendResetFlags [mailFailedFlagged] = [mailFailedFlagged] := by
  refine ⟨by decide, by decide, by decide⟩

/-- C9 amended: the manual-resend entry point resets
`graph_api_attempted` to false exactly for the mails whose state is
`outgoing`, leaving every other mail (including failed ones) unchanged. -/
theorem c9_send_resets_outgoing_only (mails : List MailMessage) (i : Nat)
    (h1 : i < mails.length) (h2 : i < (sendResetFlags mails).length) :
    (sendResetFlags mails).get ⟨i, h2⟩ =
      (if (mails.get ⟨i, h1⟩).state = MailState.outgoing
       then { mails.get ⟨i, h1⟩ with graph_api_attempted := false }
       else mails.get ⟨i, h1⟩) := by
  simp [sendResetFlags]

/-- Witness for C9 amended: the single outgoing mail of a one-element
recordset has its flag cleared. -/
theorem c9_send_resets_outgoing_only_witness :
    (sendResetFlags [mailAttempted]).get ⟨0, by decide⟩ =
      { mailAttempted with graph_api_attempted := false } := by
  have h := c9_send_resets_outgoing_only [mailAttempted] 0 (by decide) (by decide)
  simpa using h

/-- C7 counterexample: for `attsOverBudget` (raw sizes 18350080, 18350080
and 1 bytes, cumulatively one byte over the 35 MB ceiling) the code keeps
the first two attachments, whose cumulative base64-encoded size is
48933552 bytes — well above 35 MB, refuting the claimed bound on the
encoded size; the budget of lines 187-192 counts raw bytes. -/
theorem c7_counterexample_encoded_size_exceeds :
    ((attsOverBudget.map (fun a => a.datas.getD 0)).sum > maxAttachmentSize)
  ∧ sumEncoded (buildAttachments attsOverBudget).1 > maxAttachmentSize
  ∧ (buildAttachments attsOverBudget).2.1 = ["c.bin"] := by
  refine ⟨by decide, by decide, by decide⟩

/-- C7 amended: for every attachment set whose cumulative size exceeds
35 MB, the payload's attachment list has cumulative RAW (pre-encoding)
size at most 35 MB; every omitted attachment's name appears in the skip
list (plain, or with the `" (error)"` suffix); and an unreadable blob is
always skipped with its name recorded, never failing the message (the
loop is total). -/
theorem c7_attachment_budget (atts : List Attachment)
    (hover : (atts.map (fun a => a.datas.getD 0)).sum > maxAttachmentSize) :
    sumRaw (buildAttachments atts).1 ≤ maxAttachmentSize
  ∧ (∀ a ∈ atts,
       (∃ d ∈ (buildAttachments atts).1, d.name = a.name)
       ∨ a.name ∈ (buildAttachments atts).2.1
       ∨ (a.name ++ " (error)") ∈ (buildAttachments atts).2.1)
  ∧ (∀ a ∈ atts, a.datas = none →
       (a.name ++ " (error)") ∈ (buildAttachments atts).2.1) := by
  obtain ⟨h1, h2, _, _, h5, h6⟩ :=
    buildAttachmentsAux_spec atts [] [] 0 (by simp [sumRaw]) (by simp)
  simp only [buildAttachments]
  exact ⟨by rw [← h1]; exact h2, h5, h6⟩

/-- Witness for C7 amended: the over-budget set keeps its payload within
the raw ceiling, and the unreadable blob of `attsMixed` is recorded as an
error skip. -/
theorem c7_attachment_budget_witness :
    sumRaw (buildAttachments attsOverBudget).1 ≤ maxAttachmentSize
  ∧ ("broken.bin" ++ " (error)") ∈ (buildAttachments attsMixed).2.1 :=
  ⟨(c7_attachment_budget attsOverBudget (by decide)).1,
   (c7_attachment_budget attsMixed (by decide)).2.2
     { name := "broken.bin", mimetype := "", datas := none } (by decide) rfl⟩

/-- C6 counterexample: the mail-send call issued by
`IrMailServer.send_email` (line 421) carries a 30-second timeout, not the
claimed uniform 10 seconds. -/
theorem c6_counterexample_send_email_timeout_30 :
    ((sendEmail 0 envFresh (some 7) none msgSendEmail okOracle).2.2.any
        (fun e => e.isGraphSend && decide (e.timeoutSecOf ≠ 10))) = true
  ∧ (sendEmail 0 envFresh (some 7) none msgSendEmail okOracle).2.2 =
      [Event.graphSend none urlSender "TOK" payloadSendEmail 30] := by
  refine ⟨by decide, by decide⟩

/-- C6 amended: every Graph mail-send call issued by the dispatcher
`MailMail._send` is bounded by a 10-second timeout, while the mail-send
call issued by `IrMailServer.send_email` is bounded by a 30-second
timeout; the uniform 10-second bound claimed holds on the dispatcher path
only. -/
theorem c6_send_timeouts (now : Time) (env : MailEnv) (mails : List MailMessage)
    (o : Nat → MailOracle) (now2 : Time) (env2 : MailEnv) (msid : Option Nat)
    (ssrv : Option String) (msg : EmailMessage) (o2 : MailOracle) :
    (∀ e ∈ (mailSend now env mails o).events,
        e.isGraphSend = true → e.timeoutSecOf = 10)
  ∧ (∀ e ∈ (sendEmail now2 env2 msid ssrv msg o2).2.2,
        e.isGraphSend = true → e.timeoutSecOf = 30) :=
  ⟨mailSend_events now env mails o, sendEmail_events now2 env2 msid ssrv msg o2⟩

/-- Witness for C6 amended: the concrete send events of a dispatcher run
on `mailPlain` and a `send_email` run on `msgSendEmail`. -/
theorem c6_send_timeouts_witness :
    (Event.graphSend (some 2) urlSender "TOK" payloadMailPlain 10).timeoutSecOf = 10
  ∧ (Event.graphSend none urlSender "TOK" payloadSendEmail 30).timeoutSecOf = 30 := by
  have h := c6_send_timeouts 0 envFresh [mailPlain] (fun _ => okOracle) 0 envFresh
    (some 7) none msgSendEmail okOracle
  have hl1 : (mailSend 0 envFresh [mailPlain] (fun _ => okOracle)).events =
      [Event.graphSend (some 2) urlSender "TOK" payloadMailPlain 10] := by decide
  have hl2 : (sendEmail 0 envFresh (some 7) none msgSendEmail okOracle).2.2 =
      [Event.graphSend none urlSender "TOK" payloadSendEmail 30] := by decide
  refine ⟨h.1 _ ?_ (by decide), h.2 _ ?_ (by decide)⟩
  · rw [hl1]
    exact List.mem_singleton_self _
  · rw [hl2]
    exact List.mem_singleton_self _

/-- C10: after a successful authorization-code exchange the callback
writes `ms_refresh_token` unconditionally from the response
(`controllers/main.py`, lines 107-112); when the response omits
`refresh_token`, the previously stored token is overwritten with the
empty (falsy) value rather than preserved, while access token and expiry
are overwritten from the response. -/
theorem c10_callback_overwrites_refresh_token (now : Time) (env : MailEnv)
    (kw : AuthCallbackInput) (tokenResp : TokenResponse)
    (profileResp : ProfileResponse) (c st : String) (sid : Nat)
    (herr : kw.error = none) (hcode : kw.code = some c) (hstate : kw.state = some st)
    (hsid : parseNat st = some sid)
    (hmem : env.servers.any (fun p => p.1 = sid) = true)
    (hst : tokenResp.status = 200) (hrt : tokenResp.refresh_token = none) :
    ((lookupServer (microsoftAuthCallback now env kw tokenResp profileResp).2.1 sid).map
        (fun s => s.ms_refresh_token)) = some ""
  ∧ ((lookupServer (microsoftAuthCallback now env kw tokenResp profileResp).2.1 sid).map
        (fun s => s.ms_access_token)) = some (tokenResp.access_token.getD "")
  ∧ ((lookupServer (microsoftAuthCallback now env kw tokenResp profileResp).2.1 sid).map
        (fun s => s.ms_token_expiry)) =
      some (some (now + tokenResp.expires_in.getD 3600)) := by
  unfold microsoftAuthCallback
  simp only [herr, hcode, hstate, hsid]
  rw [if_neg (not_not_intro hmem)]
  rw [if_neg (not_not_intro hst)]
  try dsimp only
  split
  · split
    · rw [lookupServer_setServerState _ _ _ (by rw [any_setServerState]; exact hmem)]
      rw [hrt]
      exact ⟨rfl, rfl, rfl⟩
    · rw [lookupServer_setServerState _ _ _ hmem]
      rw [hrt]
      exact ⟨rfl, rfl, rfl⟩
  · rw [lookupServer_setServerState _ _ _ hmem]
    rw [hrt]
    exact ⟨rfl, rfl, rfl⟩

/-- Witness for C10: server 7 stores "OLDRT"; after the callback run with
a response omitting `refresh_token`, the stored refresh token is the
empty value. -/
theorem c10_callback_overwrites_refresh_token_witness :
    (getServer envOldRefresh.servers 7).ms_refresh_token = "OLDRT"
  ∧ ((lookupServer
        (microsoftAuthCallback 0 envOldRefresh kwCallback tokNoRefresh profOk).2.1
        7).map (fun s => s.ms_refresh_token)) = some "" :=
  ⟨by decide,
   (c10_callback_overwrites_refresh_token 0 envOldRefresh kwCallback tokNoRefresh
      profOk "AC" "7" 7 rfl rfl rfl rfl (by decide) rfl rfl).1⟩

end MailGraphApi
